import Mathlib

/-!
Verification of the NorthStar Funding Intelligence Platform repository.

Part I embeds the two source files (`src/frontend/app.py` and
`src/frontend/services/api_client.py`), a Streamlit navigation shell and
an HTTP client stub, as Lean definitions.

Part II models, from the specification document, the candidate
review/approval workflow engine (record store with optimistic
concurrency, lifecycle engine, discovery orchestrator): that backend is
described by the spec but is not present under `src/`, so its
definitions are explicitly marked `Modelled from the spec`.
-/

namespace Stub

/-- A Python dictionary value as used by the stub signatures; the stub
never constructs one, so entries are just string pairs. -/
abbrev Dict := List (String × String)

/-- Removal of all trailing slash characters from a character list,
embedding Python `str.rstrip('/')`. -/
def rstripSlashList (l : List Char) : List Char :=
  (l.reverse.dropWhile (fun ch => ch == '/')).reverse

/-- `base_url.rstrip('/')` from `APIClient.__init__`
(src/frontend/services/api_client.py line 22). -/
def rstripSlash (s : String) : String :=
  ⟨rstripSlashList s.data⟩

/-- The default `base_url` argument of `APIClient.__init__`
(src/frontend/services/api_client.py line 20). -/
def defaultBaseUrl : String := "http://192.168.1.10:8080"

/-- The observable state of an `APIClient` instance: the stub stores the
stripped base url (the `requests.Session` and logger objects carry no
data relevant to any method's return value). -/
structure APIClient where
  base_url : String
  deriving Repr, DecidableEq

/-- `APIClient.__init__`: stores `base_url.rstrip('/')`
(src/frontend/services/api_client.py lines 20-26). -/
def APIClient.init (base_url : String) : APIClient :=
  { base_url := rstripSlash base_url }

/-- The module-level `api_client = APIClient()` singleton
(src/frontend/services/api_client.py line 76): constructed with no
arguments, so the default `base_url` applies. -/
def api_client : APIClient := APIClient.init defaultBaseUrl

/-- `APIClient.health_check` (lines 28-35): a pure placeholder returning
a fixed dictionary; the varying `datetime.now().isoformat()` value is
passed in as the `now` argument. No network request is made. -/
def APIClient.health_check (_c : APIClient) (now : String) : Dict :=
  [("status", "pending"),
   ("message", "Backend API to be implemented in Phase 3.8"),
   ("timestamp", now)]

/-- `APIClient.get_candidates` (lines 39-41): body is `pass`, so the
call returns Python `None`. -/
def APIClient.get_candidates (_c : APIClient) : Option (List Dict) :=
  none

/-- `APIClient.get_candidate_detail` (lines 43-45): body is `pass`. -/
def APIClient.get_candidate_detail (_c : APIClient) (_candidate_id : String) :
    Option Dict :=
  none

/-- `APIClient.update_candidate` (lines 47-49): body is `pass`. -/
def APIClient.update_candidate (_c : APIClient) (_candidate_id : String)
    (_data : Dict) : Option Dict :=
  none

/-- `APIClient.approve_candidate` (lines 51-53): body is `pass`. -/
def APIClient.approve_candidate (_c : APIClient) (_candidate_id : String) :
    Option Dict :=
  none

/-- `APIClient.reject_candidate` (lines 55-57): body is `pass`. -/
def APIClient.reject_candidate (_c : APIClient) (_candidate_id : String)
    (_reason : String) : Option Dict :=
  none

/-- `APIClient.get_contact_intelligence` (lines 59-61): body is `pass`. -/
def APIClient.get_contact_intelligence (_c : APIClient)
    (_candidate_id : String) : Option (List Dict) :=
  none

/-- `APIClient.add_contact_intelligence` (lines 63-65): body is `pass`. -/
def APIClient.add_contact_intelligence (_c : APIClient)
    (_candidate_id : String) (_contact_data : Dict) : Option Dict :=
  none

/-- `APIClient.trigger_discovery` (lines 67-69): body is `pass`. -/
def APIClient.trigger_discovery (_c : APIClient) (_session_config : Dict) :
    Option Dict :=
  none

/-- `APIClient.get_discovery_sessions` (lines 71-73): body is `pass`. -/
def APIClient.get_discovery_sessions (_c : APIClient) :
    Option (List Dict) :=
  none

/-- What rendering the `main` function of src/frontend/app.py performs
for a selected page: the dashboard panel, the settings panel, a
placeholder `st.info` message, or nothing. -/
inductive RenderAction where
  | showDashboard : RenderAction
  | showSettings : RenderAction
  | infoMessage : String → RenderAction
  | noAction : RenderAction
  deriving Repr, DecidableEq

/-- The fixed page list offered by the sidebar radio in `main`
(src/frontend/app.py lines 30-39). -/
def pageList : List String :=
  ["Dashboard", "Discovery Queue", "Enhancement", "Approval Workflow",
   "Settings"]

/-- The `if/elif` page dispatch of `main`
(src/frontend/app.py lines 42-51). -/
def routePage (page : String) : RenderAction :=
  if page = "Dashboard" then
    RenderAction.showDashboard
  else if page = "Discovery Queue" then
    RenderAction.infoMessage
      "📋 Discovery Queue page - To be implemented in Phase 3.10 (T044)"
  else if page = "Enhancement" then
    RenderAction.infoMessage
      "🔍 Enhancement page - To be implemented in Phase 3.10 (T045)"
  else if page = "Approval Workflow" then
    RenderAction.infoMessage
      "✅ Approval Workflow page - To be implemented in Phase 3.10 (T046)"
  else if page = "Settings" then
    RenderAction.showSettings
  else
    RenderAction.noAction

end Stub

namespace Engine

/-- Modelled from the spec: the lifecycle states of a candidate
(spec §4.2, glossary) — the backend lifecycle engine is absent from
`src/`. -/
inductive LifecycleState where
  | Discovered : LifecycleState
  | Enhancing : LifecycleState
  | Enhanced : LifecycleState
  | Approved : LifecycleState
  | Rejected : LifecycleState
  deriving Repr, DecidableEq

/-- Modelled from the spec: a ContactIntelligence record attached to a
candidate (spec §3); only the verification flag matters to the approval
rule, the channel data is kept as a string. -/
structure Contact where
  channel : String
  verified : Bool
  deriving Repr, DecidableEq

/-- Modelled from the spec: a funding-source candidate record with its
lifecycle state and optimistic-concurrency version (spec §3). -/
structure Candidate where
  id : Nat
  name : String
  state : LifecycleState
  version : Nat
  contacts : List Contact
  deriving Repr, DecidableEq

/-- Modelled from the spec: an append-only audit record of one state
transition (spec §3). -/
structure AuditEvent where
  candidateId : Nat
  actor : String
  prevState : LifecycleState
  newState : LifecycleState
  reason : String
  deriving Repr, DecidableEq

/-- Modelled from the spec: the error taxonomy of the engine
(spec §7). -/
inductive EngineError where
  | NotFound : EngineError
  | VersionConflict : EngineError
  | InvalidTransition : EngineError
  | ValidationFailed : EngineError
  deriving Repr, DecidableEq

/-- Modelled from the spec: the Record Store's persisted state —
candidate records plus the append-only audit log (spec §3, §4.1). -/
structure Store where
  candidates : List Candidate
  audit : List AuditEvent
  deriving Repr, DecidableEq

/-- Modelled from the spec: `get(id)` lookup in the Record Store
(spec §4.1). -/
def Store.find (s : Store) (id : Nat) : Option Candidate :=
  s.candidates.find? (fun c => c.id == id)

/-- Modelled from the spec: `compareAndUpdate(id, expectedVersion,
mutator)`, the sole mutation primitive (spec §4.1). It fails with
`VersionConflict` when the stored version differs from
`expectedVersion`; on success the mutated record keeps its identity and
its version is incremented (spec §3: version strictly increases on
every mutation). -/
def compareAndUpdate (s : Store) (id expectedVersion : Nat)
    (mutator : Candidate → Candidate) :
    Except EngineError (Store × Candidate) :=
  match s.find id with
  | none => Except.error EngineError.NotFound
  | some c =>
    if c.version = expectedVersion then
      let c2 : Candidate :=
        { mutator c with id := c.id, version := c.version + 1 }
      Except.ok
        ({ s with
            candidates :=
              s.candidates.map (fun x => if x.id == id then c2 else x) },
         c2)
    else
      Except.error EngineError.VersionConflict

/-- Modelled from the spec: the allowed-transition table
`Discovered → Enhancing → Enhanced → {Approved, Rejected}` with
re-enhancement `Enhanced → Enhancing`; `Approved` and `Rejected` are
terminal (spec §4.2). -/
def allowedTransition : LifecycleState → LifecycleState → Bool
  | LifecycleState.Discovered, LifecycleState.Enhancing => true
  | LifecycleState.Enhancing, LifecycleState.Enhanced => true
  | LifecycleState.Enhanced, LifecycleState.Enhancing => true
  | LifecycleState.Enhanced, LifecycleState.Approved => true
  | LifecycleState.Enhanced, LifecycleState.Rejected => true
  | _, _ => false

/-- Modelled from the spec: `applyTransition(candidateId,
expectedVersion, targetState, actor, reason?)` of the Lifecycle Engine
(spec §4.2): rejects edges outside the table with `InvalidTransition`;
fails with `ValidationFailed` on a transition to `Rejected` without a
reason or to `Approved` without a verified contact; on success mutates
the store via `compareAndUpdate` and appends the `AuditEvent`
atomically with the state change. -/
def applyTransition (s : Store) (id expectedVersion : Nat)
    (target : LifecycleState) (actor reason : String) :
    Except EngineError (Store × Candidate) :=
  match s.find id with
  | none => Except.error EngineError.NotFound
  | some c =>
    if allowedTransition c.state target = false then
      Except.error EngineError.InvalidTransition
    else if target = LifecycleState.Rejected ∧ reason = "" then
      Except.error EngineError.ValidationFailed
    else if target = LifecycleState.Approved ∧
        c.contacts.any (fun k => k.verified) = false then
      Except.error EngineError.ValidationFailed
    else
      match compareAndUpdate s id expectedVersion
          (fun x => { x with state := target }) with
      | Except.error e => Except.error e
      | Except.ok (s2, c2) =>
        Except.ok
          ({ s2 with
              audit := s2.audit ++
                [{ candidateId := id, actor := actor,
                   prevState := c.state, newState := target,
                   reason := reason }] },
           c2)

/-- Modelled from the spec: the API-level reject command
(`POST /candidates/{id}/reject`): the API façade validates the
non-empty rejection reason before delegating (spec §4.4, §6), then the
Lifecycle Engine applies the transition to `Rejected`. -/
def rejectCandidate (s : Store) (id expectedVersion : Nat)
    (actor reason : String) : Except EngineError (Store × Candidate) :=
  if reason = "" then
    Except.error EngineError.ValidationFailed
  else
    applyTransition s id expectedVersion LifecycleState.Rejected actor
      reason

/-- Modelled from the spec: the API-level approve command
(`POST /candidates/{id}/approve`, spec §6): the Lifecycle Engine
applies the transition to `Approved`; no reason accompanies an
approval. -/
def approveCandidate (s : Store) (id expectedVersion : Nat)
    (actor : String) : Except EngineError (Store × Candidate) :=
  applyTransition s id expectedVersion LifecycleState.Approved actor ""

/-- Modelled from the spec: the API-level contact creation command
(`POST /candidates/{id}/contacts`, spec §6): appends one
ContactIntelligence record to the owning candidate through
`compareAndUpdate` at the candidate's current version (spec §3:
version strictly increases on every mutation). -/
def addContact (s : Store) (id : Nat) (contact : Contact) :
    Except EngineError (Store × Candidate) :=
  match s.find id with
  | none => Except.error EngineError.NotFound
  | some c =>
    compareAndUpdate s id c.version
      (fun x => { x with contacts := x.contacts ++ [contact] })

/-- Modelled from the spec: the status of a discovery session
(spec §3). -/
inductive SessionStatus where
  | queued : SessionStatus
  | running : SessionStatus
  | completed : SessionStatus
  | failed : SessionStatus
  deriving Repr, DecidableEq

/-- Modelled from the spec: the configuration of one discovery run
(spec §3: search parameters), kept as string pairs. -/
structure DiscoveryConfig where
  params : List (String × String)
  deriving Repr, DecidableEq

/-- Modelled from the spec: a DiscoverySession record (spec §3). -/
structure DiscoverySession where
  id : Nat
  config : DiscoveryConfig
  status : SessionStatus
  candidatesProduced : Nat
  errorDetail : Option String
  deriving Repr, DecidableEq

/-- Modelled from the spec: the Discovery Orchestrator's session list
with a fresh-identifier counter (spec §4.3). -/
structure Orchestrator where
  sessions : List DiscoverySession
  nextId : Nat
  deriving Repr, DecidableEq

/-- Modelled from the spec: `triggerDiscovery(config)` of the Discovery
Orchestrator (spec §4.3): records and returns a new session in `queued`
state; execution is asynchronous, so the call returns at once without
running any discovery work. -/
def triggerDiscovery (o : Orchestrator) (config : DiscoveryConfig) :
    Orchestrator × DiscoverySession :=
  let sess : DiscoverySession :=
    { id := o.nextId, config := config,
      status := SessionStatus.queued, candidatesProduced := 0,
      errorDetail := none }
  ({ sessions := o.sessions ++ [sess], nextId := o.nextId + 1 }, sess)

end Engine

/-! ## Theorems about the stub source -/

/-- C1: every data-fetching and mutation method of `APIClient`
(`get_candidates`, `get_candidate_detail`, `update_candidate`,
`approve_candidate`, `reject_candidate`, `get_contact_intelligence`,
`add_contact_intelligence`, `trigger_discovery`,
`get_discovery_sessions`) is unimplemented: for every client instance
and every input, each returns `None` and performs no other observable
action. -/
theorem stub_methods_all_return_none (c : Stub.APIClient)
    (cid reason : String)
    (data contact_data session_config : Stub.Dict) :
    c.get_candidates = none ∧
    c.get_candidate_detail cid = none ∧
    c.update_candidate cid data = none ∧
    c.approve_candidate cid = none ∧
    c.reject_candidate cid reason = none ∧
    c.get_contact_intelligence cid = none ∧
    c.add_contact_intelligence cid contact_data = none ∧
    c.trigger_discovery session_config = none ∧
    c.get_discovery_sessions = none :=
  ⟨rfl, rfl, rfl, rfl, rfl, rfl, rfl, rfl, rfl⟩

/-- C6: the stub defines a module-level singleton `api_client`
constructed with no arguments, so its `base_url` equals the default
`"http://192.168.1.10:8080"`. -/
theorem api_client_singleton_default_base_url :
    Stub.api_client = Stub.APIClient.init Stub.defaultBaseUrl ∧
    Stub.api_client.base_url = "http://192.168.1.10:8080" := by
  refine ⟨rfl, ?_⟩
  decide

/-- C7: page routing in `main` dispatches over the fixed five-page
list: `"Dashboard"` invokes the dashboard panel, `"Settings"` invokes
the settings panel, each of the other three selections renders only a
placeholder info message, and no selection invokes any business
logic (every routed action is one of these UI-only render actions). -/
theorem page_routing_dispatch :
    Stub.pageList =
      ["Dashboard", "Discovery Queue", "Enhancement",
       "Approval Workflow", "Settings"] ∧
    Stub.routePage "Dashboard" = Stub.RenderAction.showDashboard ∧
    Stub.routePage "Settings" = Stub.RenderAction.showSettings ∧
    Stub.routePage "Discovery Queue" = Stub.RenderAction.infoMessage
      "📋 Discovery Queue page - To be implemented in Phase 3.10 (T044)" ∧
    Stub.routePage "Enhancement" = Stub.RenderAction.infoMessage
      "🔍 Enhancement page - To be implemented in Phase 3.10 (T045)" ∧
    Stub.routePage "Approval Workflow" = Stub.RenderAction.infoMessage
      "✅ Approval Workflow page - To be implemented in Phase 3.10 (T046)" := by
  refine ⟨rfl, ?_, ?_, ?_, ?_, ?_⟩ <;> decide

/-- C8: `health_check` never contacts a backend: it is a pure function
whose result has `"status"` equal to `"pending"` and `"message"` equal
to `"Backend API to be implemented in Phase 3.8"` for every client
(any `base_url`) and every invocation time; removing the `"timestamp"`
entry, the results of any two invocations coincide. -/
theorem health_check_pending_constant (c c' : Stub.APIClient)
    (t t' : String) :
    (c.health_check t).lookup "status" = some "pending" ∧
    (c.health_check t).lookup "message" =
      some "Backend API to be implemented in Phase 3.8" ∧
    (c.health_check t).lookup "timestamp" = some t ∧
    (c.health_check t).filter (fun kv => kv.1 != "timestamp") =
      (c'.health_check t').filter (fun kv => kv.1 != "timestamp") := by
  refine ⟨?_, ?_, ?_, ?_⟩ <;> rfl

/-- C9: the result of `reject_candidate` does not depend on the
`reason` argument: for every client, candidate id and any two reason
strings, the two calls return equal results. -/
theorem reject_candidate_reason_independent (c : Stub.APIClient)
    (cid r1 r2 : String) :
    c.reject_candidate cid r1 = c.reject_candidate cid r2 :=
  rfl

/-- C10: for every `base_url` passed to `APIClient.__init__`, the
stored `base_url` equals the input with all trailing slash characters
removed (the input is the stored value followed by some run of
slashes), and consequently the stored `base_url` never ends with a
slash. -/
theorem init_base_url_strips_trailing_slashes (s : String) :
    (∃ k, s.data = (Stub.APIClient.init s).base_url.data ++
      List.replicate k '/') ∧
    (Stub.APIClient.init s).base_url.data.getLast? ≠ some '/' := by
  constructor
  · refine ⟨(s.data.reverse.takeWhile (fun ch => ch == '/')).length, ?_⟩
    show s.data = Stub.rstripSlashList s.data ++ _
    unfold Stub.rstripSlashList
    have hmem : ∀ b ∈ s.data.reverse.takeWhile (fun ch => ch == '/'),
        b = '/' := by
      intro b hb
      have hpb := List.mem_takeWhile_imp hb
      simpa using hpb
    have h3 := List.eq_replicate_of_mem hmem
    calc s.data = s.data.reverse.reverse := (List.reverse_reverse _).symm
    _ = (s.data.reverse.takeWhile (fun ch => ch == '/') ++
          s.data.reverse.dropWhile (fun ch => ch == '/')).reverse := by
        rw [List.takeWhile_append_dropWhile]
    _ = (s.data.reverse.dropWhile (fun ch => ch == '/')).reverse ++
          (s.data.reverse.takeWhile (fun ch => ch == '/')).reverse := by
        rw [List.reverse_append]
    _ = (s.data.reverse.dropWhile (fun ch => ch == '/')).reverse ++
          List.replicate
            (s.data.reverse.takeWhile (fun ch => ch == '/')).length '/' := by
        conv_lhs => rw [h3]
        rw [List.reverse_replicate]
  · show (Stub.rstripSlashList s.data).getLast? ≠ some '/'
    unfold Stub.rstripSlashList
    rw [List.getLast?_reverse]
    have h := List.head?_dropWhile_not (fun ch => ch == '/') s.data.reverse
    cases hh : (s.data.reverse.dropWhile (fun ch => ch == '/')).head? with
    | none => simp
    | some x =>
      rw [hh] at h
      simp only [beq_eq_false_iff_ne, ne_eq] at h
      simp [h]

/-! ## Lemmas about the spec-modelled engine -/

/-- Replacing the record whose identifier matches in a candidate list
makes the replacement the record that a subsequent lookup finds. -/
theorem find?_map_set {l : List Engine.Candidate} {id : Nat}
    {c c2 : Engine.Candidate}
    (h : l.find? (fun x => x.id == id) = some c) (h2 : c2.id = id) :
    (l.map (fun x => if x.id == id then c2 else x)).find?
      (fun x => x.id == id) = some c2 := by
  induction l with
  | nil => simp at h
  | cons a t ih =>
    by_cases hpa : a.id = id
    · have hb : (a.id == id) = true := by simpa using hpa
      rw [List.map_cons]
      have hhead : (if a.id == id then c2 else a) = c2 := by simp [hb]
      rw [hhead]
      have hc2 : (c2.id == id) = true := by simpa using h2
      exact List.find?_cons_of_pos _ hc2
    · have hb : (a.id == id) = false := by simpa using hpa
      rw [List.find?_cons_of_neg _ (by simp [hb])] at h
      rw [List.map_cons]
      have hhead : (if a.id == id then c2 else a) = a := by simp [hb]
      rw [hhead]
      rw [List.find?_cons_of_neg _ (by simp [hb])]
      exact ih h

/-- A successful `compareAndUpdate` at the stored version: the result
pairs the updated store with the mutated record (identity preserved,
version incremented); the audit log is untouched and the lookup now
yields the mutated record. -/
theorem compareAndUpdate_ok (s : Engine.Store) (id v : Nat)
    (m : Engine.Candidate → Engine.Candidate) (c : Engine.Candidate)
    (hfind : s.find id = some c) (hv : c.version = v) :
    ∃ s2,
      Engine.compareAndUpdate s id v m =
        Except.ok (s2, { m c with id := c.id, version := c.version + 1 }) ∧
      s2.audit = s.audit ∧
      s2.find id = some { m c with id := c.id, version := c.version + 1 } := by
  have hcid : c.id = id := by
    simpa using List.find?_some hfind
  refine ⟨{ s with candidates := (s.candidates.map
      (fun x => if x.id == id then
        { m c with id := c.id, version := c.version + 1 } else x)) },
    ?_, rfl, ?_⟩
  · unfold Engine.compareAndUpdate
    rw [hfind]
    simp [hv]
  · unfold Engine.Store.find
    exact find?_map_set hfind hcid

/-! ## Theorems about the spec-modelled engine -/

/-- C4: for every discovery configuration, `triggerDiscovery` returns
at once a `DiscoverySession` record whose status is `queued` (carrying
the requested configuration, and recorded in the session list); no
discovery work is performed by the call. -/
theorem trigger_discovery_returns_queued (o : Engine.Orchestrator)
    (config : Engine.DiscoveryConfig) :
    (Engine.triggerDiscovery o config).2.status =
      Engine.SessionStatus.queued ∧
    (Engine.triggerDiscovery o config).2.config = config ∧
    (Engine.triggerDiscovery o config).1.sessions =
      o.sessions ++ [(Engine.triggerDiscovery o config).2] :=
  ⟨rfl, rfl, rfl⟩

/-- C5: two `compareAndUpdate` calls against the same candidate with
the same `expectedVersion`, executed atomically in either interleaving
order: exactly one succeeds, the other fails with `VersionConflict`,
and the final stored version equals the successful caller's new
version. -/
theorem compareAndUpdate_race (s : Engine.Store) (id v : Nat)
    (mA mB : Engine.Candidate → Engine.Candidate)
    (c : Engine.Candidate)
    (hfind : s.find id = some c) (hv : c.version = v) :
    (∃ s1 c1,
      Engine.compareAndUpdate s id v mA = Except.ok (s1, c1) ∧
      Engine.compareAndUpdate s1 id v mB =
        Except.error Engine.EngineError.VersionConflict ∧
      c1.version = v + 1 ∧
      (s1.find id).map (fun x => x.version) = some c1.version) ∧
    (∃ s1 c1,
      Engine.compareAndUpdate s id v mB = Except.ok (s1, c1) ∧
      Engine.compareAndUpdate s1 id v mA =
        Except.error Engine.EngineError.VersionConflict ∧
      c1.version = v + 1 ∧
      (s1.find id).map (fun x => x.version) = some c1.version) := by
  have main : ∀ m m' : Engine.Candidate → Engine.Candidate,
      ∃ s1 c1,
        Engine.compareAndUpdate s id v m = Except.ok (s1, c1) ∧
        Engine.compareAndUpdate s1 id v m' =
          Except.error Engine.EngineError.VersionConflict ∧
        c1.version = v + 1 ∧
        (s1.find id).map (fun x => x.version) = some c1.version := by
    intro m m'
    obtain ⟨s1, hok, haudit, hfind1⟩ :=
      compareAndUpdate_ok s id v m c hfind hv
    refine ⟨s1, _, hok, ?_, ?_, ?_⟩
    · unfold Engine.compareAndUpdate
      rw [hfind1]
      simp [hv]
    · simp [hv]
    · rw [hfind1]
      simp
  exact ⟨main mA mB, main mB mA⟩

/-- Witness for C5: the race property evaluated on a one-candidate
store at version 3 with two renaming mutators. -/
theorem compareAndUpdate_race_witness :
    (Engine.Store.mk
        [Engine.Candidate.mk 1 "Acme" Engine.LifecycleState.Enhanced 3 []]
        []).find 1 =
      some (Engine.Candidate.mk 1 "Acme"
        Engine.LifecycleState.Enhanced 3 []) ∧
    (Engine.Candidate.mk 1 "Acme"
      Engine.LifecycleState.Enhanced 3 []).version = 3 ∧
    ((∃ s1 c1,
      Engine.compareAndUpdate
        (Engine.Store.mk
          [Engine.Candidate.mk 1 "Acme"
            Engine.LifecycleState.Enhanced 3 []] [])
        1 3 (fun x => { x with name := "opA" }) = Except.ok (s1, c1) ∧
      Engine.compareAndUpdate s1 1 3 (fun x => { x with name := "opB" }) =
        Except.error Engine.EngineError.VersionConflict ∧
      c1.version = 3 + 1 ∧
      (s1.find 1).map (fun x => x.version) = some c1.version) ∧
    (∃ s1 c1,
      Engine.compareAndUpdate
        (Engine.Store.mk
          [Engine.Candidate.mk 1 "Acme"
            Engine.LifecycleState.Enhanced 3 []] [])
        1 3 (fun x => { x with name := "opB" }) = Except.ok (s1, c1) ∧
      Engine.compareAndUpdate s1 1 3 (fun x => { x with name := "opA" }) =
        Except.error Engine.EngineError.VersionConflict ∧
      c1.version = 3 + 1 ∧
      (s1.find 1).map (fun x => x.version) = some c1.version)) :=
  ⟨rfl, rfl,
    compareAndUpdate_race
      (Engine.Store.mk
        [Engine.Candidate.mk 1 "Acme"
          Engine.LifecycleState.Enhanced 3 []] [])
      1 3 (fun x => { x with name := "opA" })
      (fun x => { x with name := "opB" })
      (Engine.Candidate.mk 1 "Acme" Engine.LifecycleState.Enhanced 3 [])
      rfl rfl⟩

/-- C2: for every candidate id, rejecting with an empty reason fails
with `ValidationFailed`; rejecting with a non-empty reason a candidate
in state `Enhanced` at its stored version succeeds, moves it to
`Rejected`, and appends exactly one `AuditEvent`. -/
theorem reject_empty_fails_nonempty_appends_one_audit
    (s : Engine.Store) (id ev : Nat) (actor reason : String)
    (c : Engine.Candidate) (hr : reason ≠ "")
    (hfind : s.find id = some c)
    (hstate : c.state = Engine.LifecycleState.Enhanced)
    (hv : c.version = ev) :
    (∀ (s' : Engine.Store) (id' ev' : Nat) (actor' : String),
      Engine.rejectCandidate s' id' ev' actor' "" =
        Except.error Engine.EngineError.ValidationFailed) ∧
    (∃ s2 c2 e,
      Engine.rejectCandidate s id ev actor reason = Except.ok (s2, c2) ∧
      c2.state = Engine.LifecycleState.Rejected ∧
      s2.audit = s.audit ++ [e]) := by
  constructor
  · intro s' id' ev' actor'
    unfold Engine.rejectCandidate
    simp
  · obtain ⟨s1, hok, haudit, hfind1⟩ :=
      compareAndUpdate_ok s id ev
        (fun x => { x with state := Engine.LifecycleState.Rejected })
        c hfind hv
    have heq : Engine.rejectCandidate s id ev actor reason =
        Except.ok
          ({ s1 with audit := (s1.audit ++
              [{ candidateId := id, actor := actor,
                 prevState := Engine.LifecycleState.Enhanced,
                 newState := Engine.LifecycleState.Rejected,
                 reason := reason }]) },
           { c with state := Engine.LifecycleState.Rejected,
                    version := c.version + 1 }) := by
      unfold Engine.rejectCandidate Engine.applyTransition
      rw [if_neg hr, hfind]
      simp [Engine.allowedTransition, hstate, hr, hok]
    refine ⟨_, _,
      { candidateId := id, actor := actor,
        prevState := Engine.LifecycleState.Enhanced,
        newState := Engine.LifecycleState.Rejected,
        reason := reason },
      heq, rfl, ?_⟩
    show s1.audit ++ _ = s.audit ++ _
    rw [haudit]

/-- Witness for C2: the rejection property evaluated on a
one-candidate store holding an `Enhanced` candidate at version 2, with
reason `"duplicate"`. -/
theorem reject_empty_fails_nonempty_appends_one_audit_witness :
    ("duplicate" : String) ≠ "" ∧
    (Engine.Store.mk
        [Engine.Candidate.mk 7 "Beta" Engine.LifecycleState.Enhanced 2 []]
        []).find 7 =
      some (Engine.Candidate.mk 7 "Beta"
        Engine.LifecycleState.Enhanced 2 []) ∧
    (Engine.Candidate.mk 7 "Beta"
      Engine.LifecycleState.Enhanced 2 []).state =
      Engine.LifecycleState.Enhanced ∧
    (Engine.Candidate.mk 7 "Beta"
      Engine.LifecycleState.Enhanced 2 []).version = 2 ∧
    ((∀ (s' : Engine.Store) (id' ev' : Nat) (actor' : String),
      Engine.rejectCandidate s' id' ev' actor' "" =
        Except.error Engine.EngineError.ValidationFailed) ∧
    (∃ s2 c2 e,
      Engine.rejectCandidate
        (Engine.Store.mk
          [Engine.Candidate.mk 7 "Beta"
            Engine.LifecycleState.Enhanced 2 []] [])
        7 2 "operator" "duplicate" = Except.ok (s2, c2) ∧
      c2.state = Engine.LifecycleState.Rejected ∧
      s2.audit =
        (Engine.Store.mk
          [Engine.Candidate.mk 7 "Beta"
            Engine.LifecycleState.Enhanced 2 []] []).audit ++ [e])) :=
  ⟨by decide, rfl, rfl, rfl,
    reject_empty_fails_nonempty_appends_one_audit
      (Engine.Store.mk
        [Engine.Candidate.mk 7 "Beta"
          Engine.LifecycleState.Enhanced 2 []] [])
      7 2 "operator" "duplicate"
      (Engine.Candidate.mk 7 "Beta" Engine.LifecycleState.Enhanced 2 [])
      (by decide) rfl rfl rfl⟩

/-- C3: approving a candidate in state `Enhanced` that lacks any
verified contact fails with `ValidationFailed`; after a verified
contact is added, approval at the correct (new) version succeeds, the
state becomes `Approved`, and one `AuditEvent` is recorded. -/
theorem approve_requires_verified_contact
    (s : Engine.Store) (id : Nat) (actor : String)
    (c : Engine.Candidate) (k : Engine.Contact)
    (hfind : s.find id = some c)
    (hstate : c.state = Engine.LifecycleState.Enhanced)
    (hnone : c.contacts.any (fun x => x.verified) = false)
    (hk : k.verified = true) :
    Engine.approveCandidate s id c.version actor =
      Except.error Engine.EngineError.ValidationFailed ∧
    (∃ s1 c1,
      Engine.addContact s id k = Except.ok (s1, c1) ∧
      ∃ s2 c2 e,
        Engine.approveCandidate s1 id c1.version actor =
          Except.ok (s2, c2) ∧
        c2.state = Engine.LifecycleState.Approved ∧
        s2.audit = s1.audit ++ [e]) := by
  constructor
  · unfold Engine.approveCandidate Engine.applyTransition
    rw [hfind]
    simp [Engine.allowedTransition, hstate, hnone]
  · obtain ⟨s1, hok1, haudit1, hfind1⟩ :=
      compareAndUpdate_ok s id c.version
        (fun x => { x with contacts := (x.contacts ++ [k]) }) c hfind rfl
    obtain ⟨s2, hok2, haudit2, hfind2⟩ :=
      compareAndUpdate_ok s1 id (c.version + 1)
        (fun x => { x with state := Engine.LifecycleState.Approved })
        _ hfind1 rfl
    refine ⟨s1,
      { c with contacts := (c.contacts ++ [k]),
               version := c.version + 1 }, ?_, ?_⟩
    · unfold Engine.addContact
      rw [hfind]
      exact hok1
    · have heq : Engine.approveCandidate s1 id (c.version + 1) actor =
          Except.ok
            ({ s2 with audit := (s2.audit ++
                [{ candidateId := id, actor := actor,
                   prevState := Engine.LifecycleState.Enhanced,
                   newState := Engine.LifecycleState.Approved,
                   reason := "" }]) },
             { c with state := Engine.LifecycleState.Approved,
                      contacts := (c.contacts ++ [k]),
                      version := c.version + 1 + 1 }) := by
        unfold Engine.approveCandidate Engine.applyTransition
        rw [hfind1]
        simp [Engine.allowedTransition, hstate, hnone, hk, hok2]
      refine ⟨_, _,
        { candidateId := id, actor := actor,
          prevState := Engine.LifecycleState.Enhanced,
          newState := Engine.LifecycleState.Approved,
          reason := "" },
        heq, rfl, ?_⟩
      show s2.audit ++ _ = s1.audit ++ _
      rw [haudit2]

/-- Witness for C3: the approval property evaluated on a one-candidate
store holding an `Enhanced` candidate at version 1 with no contacts,
adding a verified email contact. -/
theorem approve_requires_verified_contact_witness :
    (Engine.Store.mk
        [Engine.Candidate.mk 4 "Gamma" Engine.LifecycleState.Enhanced 1 []]
        []).find 4 =
      some (Engine.Candidate.mk 4 "Gamma"
        Engine.LifecycleState.Enhanced 1 []) ∧
    (Engine.Candidate.mk 4 "Gamma"
      Engine.LifecycleState.Enhanced 1 []).state =
      Engine.LifecycleState.Enhanced ∧
    ((Engine.Candidate.mk 4 "Gamma"
      Engine.LifecycleState.Enhanced 1 []).contacts.any
        (fun x => x.verified)) = false ∧
    (Engine.Contact.mk "email" true).verified = true ∧
    (Engine.approveCandidate
        (Engine.Store.mk
          [Engine.Candidate.mk 4 "Gamma"
            Engine.LifecycleState.Enhanced 1 []] [])
        4 (Engine.Candidate.mk 4 "Gamma"
            Engine.LifecycleState.Enhanced 1 []).version "operator" =
      Except.error Engine.EngineError.ValidationFailed ∧
    (∃ s1 c1,
      Engine.addContact
        (Engine.Store.mk
          [Engine.Candidate.mk 4 "Gamma"
            Engine.LifecycleState.Enhanced 1 []] [])
        4 (Engine.Contact.mk "email" true) = Except.ok (s1, c1) ∧
      ∃ s2 c2 e,
        Engine.approveCandidate s1 4 c1.version "operator" =
          Except.ok (s2, c2) ∧
        c2.state = Engine.LifecycleState.Approved ∧
        s2.audit = s1.audit ++ [e])) :=
  ⟨rfl, rfl, rfl, rfl,
    approve_requires_verified_contact
      (Engine.Store.mk
        [Engine.Candidate.mk 4 "Gamma"
          Engine.LifecycleState.Enhanced 1 []] [])
      4 "operator"
      (Engine.Candidate.mk 4 "Gamma" Engine.LifecycleState.Enhanced 1 [])
      (Engine.Contact.mk "email" true)
      rfl rfl rfl rfl⟩
